import Mathlib

/-!
Shallow embedding of the continuous face-detection polling loop and
access-event reconciliation engine of the access-control dashboard.

Sources embedded:
- `src/hooks/useFaceDetection.ts` (detectOnce, startContinuousDetection,
  stopDetection): modelled as an explicit event-loop state machine
  (`LoopState`, `LoopEvent`, `step`), where a `tick` is a timer callback
  firing, and `resolve` is the continuation of the suspended `await` on
  the recognition call.
- `src/pages/access-control/components/WebcamFaceRecognition.tsx`
  (processDetectedFaces, handleToggleDetection, the overlay box style):
  the reconciler is `processDetectedFaces`, the component lifecycle is
  `ComponentState` / `handleToggleDetection`, and the overlay mapper is
  `mapToMirroredScreenSpace`.
- `src/contexts/DataContext.tsx` (Person shape, logAccess argument list).

Machine numbers: timestamps are `Int` (JS `Date.now()` values), bounding
box fields are `Rat` (JS doubles used only with addition and
subtraction here, so exact
rational arithmetic coincides with the source's float arithmetic on the
inputs considered).
-/

namespace FaceDetect

/-- User types from `DataContext.tsx` (`UserType`). -/
inductive UserType where
  | student
  | teacher
  | staff
deriving DecidableEq, Repr

/-- The fields of `Person` (`DataContext.tsx`) that the detection core
reads: identity, name parts, type, and the two flags used by the roster
filter in `detectOnce`. -/
structure Person where
  id : String
  firstName : String
  lastName : String
  type : UserType
  hasFacialData : Bool
  active : Bool
deriving DecidableEq, Repr

/-- Bounding box of a detected face (`useFaceDetection.ts`,
`DetectedFace.boundingBox`): each field a percentage (0-100) of frame
dimensions in the unmirrored source image. -/
structure BoundingBox where
  x : ℚ
  y : ℚ
  width : ℚ
  height : ℚ
deriving DecidableEq, Repr

/-- `DetectedFace` from `useFaceDetection.ts`. -/
structure DetectedFace where
  id : String
  boundingBox : BoundingBox
  matchedPersonId : Option String
  matchedPersonName : Option String
  confidence : ℤ
  isRegistered : Bool
deriving DecidableEq, Repr

/-- `FaceDetectionResult` from `useFaceDetection.ts`. -/
structure FaceDetectionResult where
  faces : List DetectedFace
  totalFaces : ℤ
  message : String
deriving DecidableEq, Repr

/-- Entries of the `registeredFaces` array built in `detectOnce`
(`useFaceDetection.ts` lines 50-55): `{id, name}`. -/
structure RosterEntry where
  id : String
  name : String
deriving DecidableEq, Repr

/-- The roster computation of `detectOnce` (`useFaceDetection.ts` lines
50-55): filter to people with facial data that are active, then map to
`{id, name: firstName + " " + lastName}`. -/
def registeredFacesOf (registeredPeople : List Person) : List RosterEntry :=
  (registeredPeople.filter fun p => p.hasFacialData && p.active).map
    fun p => { id := p.id, name := p.firstName ++ " " ++ p.lastName }

/-- The overlay style computed for each detected face in
`WebcamFaceRecognition.tsx` lines 144-166: `adjustedX = 100 -
face.boundingBox.x - face.boundingBox.width` becomes `left`, and `top`,
`width`, `height` are taken from the box unchanged. -/
structure OverlayBox where
  left : ℚ
  top : ℚ
  width : ℚ
  height : ℚ
deriving DecidableEq, Repr

/-- The Overlay Coordinate Mapper: the inline computation of
`WebcamFaceRecognition.tsx` lines 146 and 158-162, under the name the
spec gives it. No clamping appears anywhere in that computation. -/
def mapToMirroredScreenSpace (b : BoundingBox) : OverlayBox :=
  { left := 100 - b.x - b.width
    top := b.y
    width := b.width
    height := b.height }

/-- The `loggedPersonsRef` map of `WebcamFaceRecognition.tsx` line 23
(`Map<string, number>`, personId to last-logged epoch milliseconds),
modelled as an association list without duplicate keys. -/
abbrev CooldownMap := List (String × ℤ)

/-- `Map.get`: first matching key, `none` when absent. -/
def lookupCooldown : CooldownMap → String → Option ℤ
  | [], _ => none
  | (k, v) :: rest, pid => if k = pid then some v else lookupCooldown rest pid

/-- `Map.set`: overwrite the existing entry, or append a new one. -/
def setCooldown : CooldownMap → String → ℤ → CooldownMap
  | [], pid, t => [(pid, t)]
  | (k, v) :: rest, pid, t =>
      if k = pid then (k, t) :: rest else (k, v) :: setCooldown rest pid t

/-- The shape handed to `logAccess` (`DataContext.tsx` lines 292-298)
plus the timestamp at which the reconciler emitted it; the spec's
AccessEvent. -/
structure AccessEvent where
  personId : String
  personName : String
  personType : UserType
  method : String
  granted : Bool
  timestamp : ℤ
deriving DecidableEq, Repr

/-- The event built from `person` in `processDetectedFaces`
(`WebcamFaceRecognition.tsx` lines 59-65). -/
def mkAccessEvent (person : Person) (now : ℤ) : AccessEvent :=
  { personId := person.id
    personName := person.firstName ++ " " ++ person.lastName
    personType := person.type
    method := "facial"
    granted := true
    timestamp := now }

/-- The cooldown test of `WebcamFaceRecognition.tsx` line 55:
`!lastLogged || now - lastLogged > 30000`. JS truthiness: `!lastLogged`
is `true` both when the map has no entry and when the stored number is
`0` (zero is falsy). -/
def shouldLog (m : CooldownMap) (pid : String) (now : ℤ) : Bool :=
  match lookupCooldown m pid with
  | none => true
  | some lastLogged => lastLogged == 0 || decide (now - lastLogged > 30000)

/-- The body of the `for` loop of `processDetectedFaces`
(`WebcamFaceRecognition.tsx` lines 47-73) for one face, threading the
cooldown map and accumulating emitted events in order. -/
def processFace (people : List Person) (now : ℤ)
    (acc : CooldownMap × List AccessEvent) (face : DetectedFace) :
    CooldownMap × List AccessEvent :=
  if face.isRegistered then
    match face.matchedPersonId with
    | some pid =>
      match people.find? (fun p => p.id == pid) with
      | some person =>
        if shouldLog acc.1 pid now then
          (setCooldown acc.1 pid now, acc.2 ++ [mkAccessEvent person now])
        else acc
      | none => acc
    | none => acc
  else acc

/-- The reconciler: the effect of `WebcamFaceRecognition.tsx` lines
45-79. `processDetectedFaces` runs only when some face is registered
(line 76); it walks the detected faces in order, emitting an access
event and stamping the cooldown map for each qualifying face. Returns
the updated map and the emitted events. -/
def processDetectedFaces (people : List Person) (faces : List DetectedFace)
    (m : CooldownMap) (now : ℤ) : CooldownMap × List AccessEvent :=
  if faces.any (fun f => f.isRegistered) then
    faces.foldl (processFace people now) (m, [])
  else (m, [])

/-- State of the `useFaceDetection` hook (`useFaceDetection.ts` lines
39-43) together with bookkeeping that makes the environment observable:
`activeTimers` is every interval timer that has been created and not
cleared (each carrying the `registeredPeople` its callback closure
captured), `pending` counts recognition calls issued and not yet
settled, `captures` counts invocations of `captureImage`, and
`detectCalls` logs the roster passed to each recognition call in
issuance order. -/
structure LoopState where
  isDetecting : Bool
  detectedFaces : List DetectedFace
  error : Option String
  intervalRef : Option ℕ
  isProcessing : Bool
  activeTimers : List (ℕ × List Person)
  nextTimerId : ℕ
  pending : ℕ
  captures : ℕ
  detectCalls : List (List RosterEntry)
deriving DecidableEq, Repr

/-- Hook state as first rendered. -/
def initialLoopState : LoopState :=
  { isDetecting := false
    detectedFaces := []
    error := none
    intervalRef := none
    isProcessing := false
    activeTimers := []
    nextTimerId := 0
    pending := 0
    captures := 0
    detectCalls := [] }

/-- Events of the single-threaded event loop driving the hook:
`start registeredPeople frame` is a call to `startContinuousDetection`
(with `frame` the value its immediate `captureImage()` will return);
`tick tid frame livePeople` is the interval callback of timer `tid`
firing (`livePeople` is the person list live at that moment, recorded
so theorems can compare it with what the code actually uses);
`resolve r` is the settled recognition call resuming the suspended
`runDetection` (`Except.ok` carries the parsed result, `Except.error`
the message `detectOnce` catches before returning `null`);
`stop` is a call to `stopDetection`. -/
inductive LoopEvent where
  | start (registeredPeople : List Person) (frame : Option String)
  | tick (tid : ℕ) (frame : Option String) (livePeople : List Person)
  | resolve (result : Except String FaceDetectionResult)
  | stop
deriving Repr

/-- The synchronous prefix of `runDetection` (`useFaceDetection.ts`
lines 91-105): skip when `isProcessingRef` is set; otherwise set it,
capture a frame, and if one is available issue the recognition call
(computing the roster from the closure's `registeredPeople`, lines
50-55) and suspend at the `await`; with no frame, reset the guard and
return. -/
def runDetection (s : LoopState) (registeredPeople : List Person)
    (frame : Option String) : LoopState :=
  if s.isProcessing then s
  else
    match frame with
    | none => { s with isProcessing := false, captures := s.captures + 1 }
    | some _ =>
        { s with
          isProcessing := true
          captures := s.captures + 1
          pending := s.pending + 1
          detectCalls := s.detectCalls ++ [registeredFacesOf registeredPeople] }

/-- One event-loop step of the hook.
`start`: `startContinuousDetection` (lines 83-112) sets `isDetecting`,
clears `error`, runs `runDetection` once immediately, then registers a
new interval timer and overwrites `intervalRef` with its handle — with
no check whether a timer already exists.
`tick`: the callback of timer `tid` runs `runDetection` with the people
snapshot captured by that timer's closure; a cleared timer never fires.
`resolve`: the suspended `runDetection` resumes (lines 98-104): on a
result, `setDetectedFaces(result.faces)` — unconditionally, with no
check that detection is still active — on `null` (failure caught inside
`detectOnce`, lines 76-80) `setError` and leave the faces; either way
`isProcessingRef` is reset.
`stop`: `stopDetection` (lines 114-122) clears the timer named by
`intervalRef` (only that one), resets `isDetecting`, empties the
published faces and resets the guard. -/
def step (s : LoopState) (e : LoopEvent) : LoopState :=
  match e with
  | .start registeredPeople frame =>
      let s1 := { s with isDetecting := true, error := none }
      let s2 := runDetection s1 registeredPeople frame
      { s2 with
        activeTimers := s2.activeTimers ++ [(s2.nextTimerId, registeredPeople)]
        intervalRef := some s2.nextTimerId
        nextTimerId := s2.nextTimerId + 1 }
  | .tick tid frame _livePeople =>
      match s.activeTimers.find? (fun t => t.1 == tid) with
      | some (_, registeredPeople) => runDetection s registeredPeople frame
      | none => s
  | .resolve result =>
      if s.pending = 0 then s
      else
        match result with
        | .ok res =>
            { s with
              pending := s.pending - 1
              detectedFaces := res.faces
              isProcessing := false }
        | .error msg =>
            { s with
              pending := s.pending - 1
              error := some msg
              isProcessing := false }
  | .stop =>
      let s1 :=
        match s.intervalRef with
        | some tid =>
            { s with
              activeTimers := s.activeTimers.filter (fun t => !(t.1 == tid))
              intervalRef := none }
        | none => s
      { s1 with isDetecting := false, detectedFaces := [], isProcessing := false }

/-- Run a sequence of event-loop steps. -/
def run (s : LoopState) (events : List LoopEvent) : LoopState :=
  events.foldl step s

/-- State of the `WebcamFaceRecognition` component: the hook state, the
`isActive` flag (line 22) and the `loggedPersonsRef` cooldown map
(line 23). -/
structure ComponentState where
  loop : LoopState
  isActive : Bool
  loggedPersons : CooldownMap
deriving DecidableEq, Repr

/-- `handleToggleDetection` (`WebcamFaceRecognition.tsx` lines 81-89):
when active, call `stopDetection` and clear the flag — `loggedPersons`
is not touched; when inactive, call `startContinuousDetection` with the
current people list and set the flag. -/
def handleToggleDetection (cs : ComponentState) (people : List Person)
    (frame : Option String) : ComponentState :=
  if cs.isActive then
    { cs with loop := step cs.loop .stop, isActive := false }
  else
    { cs with loop := step cs.loop (.start people frame), isActive := true }

/-- The detected-faces effect (`WebcamFaceRecognition.tsx` lines 45-79)
running against the currently published faces: reconcile and store the
updated cooldown map, returning the emitted events. -/
def onDetectedFaces (cs : ComponentState) (people : List Person)
    (now : ℤ) : ComponentState × List AccessEvent :=
  let r := processDetectedFaces people cs.loop.detectedFaces cs.loggedPersons now
  ({ cs with loggedPersons := r.1 }, r.2)

/-- Recognizes the `stop` event, used to scope invariants to one run of
the detection loop (start through ticks and resolutions, no stop). -/
def isStopEvent : LoopEvent → Bool
  | .stop => true
  | _ => false

/-- Mutual-exclusion invariant of the loop within one running session:
at most one recognition call is outstanding, and whenever the
`isProcessingRef` guard is clear no call is outstanding. -/
def InFlightInv (s : LoopState) : Prop :=
  s.pending ≤ 1 ∧ (s.isProcessing = false → s.pending = 0)

/-- The guard is set only while a recognition call is outstanding, so a
resolution that clears it is always forthcoming. Holds across every
event, `stop` included. -/
def ProcInv (s : LoopState) : Prop :=
  s.isProcessing = true → 1 ≤ s.pending

/-- Concrete enrolled, active person. -/
def cPerson : Person :=
  { id := "p1", firstName := "Ada", lastName := "L", type := .student
    hasFacialData := true, active := true }

/-- A second enrolled, active person, for roster-change scenarios. -/
def bobPerson : Person :=
  { id := "p2", firstName := "Bob", lastName := "M", type := .teacher
    hasFacialData := true, active := true }

/-- The bounding box of the spec's mirroring example. -/
def cBox : BoundingBox := { x := 25, y := 15, width := 30, height := 40 }

/-- A detection of `cPerson`, registered. -/
def cFace : DetectedFace :=
  { id := "f1", boundingBox := cBox, matchedPersonId := some "p1"
    matchedPersonName := some "Ada L", confidence := 92, isRegistered := true }

/-- A successful recognition result carrying `cFace`. -/
def cResult : FaceDetectionResult :=
  { faces := [cFace], totalFaces := 1, message := "ok" }

/-- Component after toggling detection on (start issues a recognition
call for the available frame). -/
def csStart : ComponentState :=
  handleToggleDetection
    { loop := initialLoopState, isActive := false, loggedPersons := [] }
    [cPerson] (some "img")

/-- Component after the recognition call resolves and publishes
`cFace`. -/
def csPublished : ComponentState :=
  { csStart with loop := step csStart.loop (.resolve (.ok cResult)) }

/-- Component after the detected-faces effect logs `cPerson` at
t = 5000 ms. -/
def csLogged : ComponentState := (onDetectedFaces csPublished [cPerson] 5000).1

/-- Component after toggling detection off again. -/
def csStopped : ComponentState := handleToggleDetection csLogged [cPerson] none

/-- Component after toggling a second detection session on. -/
def csRestarted : ComponentState :=
  handleToggleDetection csStopped [cPerson] (some "img")

/-- Second session after its recognition call publishes `cFace`
again. -/
def csRepublished : ComponentState :=
  { csRestarted with loop := step csRestarted.loop (.resolve (.ok cResult)) }

/-- Reading back the key just written returns the new timestamp. -/
theorem lookupCooldown_setCooldown_self (m : CooldownMap) (pid : String)
    (t : ℤ) : lookupCooldown (setCooldown m pid t) pid = some t := by
  induction m with
  | nil => simp [setCooldown, lookupCooldown]
  | cons kv rest ih =>
      by_cases hk : kv.1 = pid
      · simp [setCooldown, lookupCooldown, hk]
      · simpa [setCooldown, lookupCooldown, hk] using ih

/-- Writing one key leaves every other key's entry unchanged. -/
theorem lookupCooldown_setCooldown_of_ne (m : CooldownMap)
    (pid pid2 : String) (t : ℤ) (hne : pid ≠ pid2) :
    lookupCooldown (setCooldown m pid t) pid2 = lookupCooldown m pid2 := by
  induction m with
  | nil => simp [setCooldown, lookupCooldown, hne]
  | cons kv rest ih =>
      by_cases hk : kv.1 = pid
      · simp [setCooldown, lookupCooldown, hk, hne]
      · simp [setCooldown, lookupCooldown, hk, ih]

/-- `runDetection` preserves the in-flight mutual-exclusion invariant. -/
theorem runDetection_inFlightInv (s : LoopState)
    (registeredPeople : List Person) (frame : Option String)
    (h : InFlightInv s) : InFlightInv (runDetection s registeredPeople frame) := by
  by_cases hp : s.isProcessing = true
  · simpa [runDetection, hp] using h
  · have hp0 : s.pending = 0 := h.2 (by simpa using hp)
    cases frame with
    | none => simp [runDetection, hp, InFlightInv, hp0]
    | some img => simp [runDetection, hp, InFlightInv, hp0]

/-- Every event other than `stop` preserves the in-flight invariant. -/
theorem step_inFlightInv (s : LoopState) (e : LoopEvent)
    (hs : isStopEvent e = false) (h : InFlightInv s) : InFlightInv (step s e) := by
  cases e with
  | start registeredPeople frame =>
      have h2 := runDetection_inFlightInv
        { s with isDetecting := true, error := none } registeredPeople frame h
      exact h2
  | tick tid frame livePeople =>
      cases hf : s.activeTimers.find? (fun t => t.1 == tid) with
      | none => simpa [step, hf] using h
      | some entry =>
          have h2 := runDetection_inFlightInv s entry.2 frame h
          simpa [step, hf] using h2
  | resolve result =>
      by_cases hp : s.pending = 0
      · simpa [step, hp] using h
      · have hle := h.1
        have h1 : s.pending = 1 := by omega
        cases result with
        | ok res => simp [step, hp, InFlightInv, h1]
        | error msg => simp [step, hp, InFlightInv, h1]
  | stop => simp [isStopEvent] at hs

/-- The in-flight invariant holds after any stop-free event sequence. -/
theorem run_inFlightInv (events : List LoopEvent) (s : LoopState)
    (hsess : ∀ e ∈ events, isStopEvent e = false) (h : InFlightInv s) :
    InFlightInv (run s events) := by
  induction events generalizing s with
  | nil => exact h
  | cons e rest ih =>
      exact ih (step s e)
        (fun x hx => hsess x (List.mem_cons_of_mem e hx))
        (step_inFlightInv s e (hsess e (List.mem_cons_self e rest)) h)

/-- `runDetection` sets the guard only together with an outstanding
call. -/
theorem runDetection_procInv (s : LoopState)
    (registeredPeople : List Person) (frame : Option String)
    (h : ProcInv s) : ProcInv (runDetection s registeredPeople frame) := by
  by_cases hp : s.isProcessing = true
  · simpa [runDetection, hp] using h
  · cases frame with
    | none => simp [runDetection, hp, ProcInv]
    | some img => simp [runDetection, hp, ProcInv]

/-- Every event, `stop` included, preserves `ProcInv`. -/
theorem step_procInv (s : LoopState) (e : LoopEvent) (h : ProcInv s) :
    ProcInv (step s e) := by
  cases e with
  | start registeredPeople frame =>
      exact runDetection_procInv
        { s with isDetecting := true, error := none } registeredPeople frame h
  | tick tid frame livePeople =>
      cases hf : s.activeTimers.find? (fun t => t.1 == tid) with
      | none => simpa [step, hf] using h
      | some entry =>
          have h2 := runDetection_procInv s entry.2 frame h
          simpa [step, hf] using h2
  | resolve result =>
      by_cases hp : s.pending = 0
      · simpa [step, hp] using h
      · cases result with
        | ok res => simp [step, hp, ProcInv]
        | error msg => simp [step, hp, ProcInv]
  | stop =>
      cases hi : s.intervalRef with
      | none => simp [step, hi, ProcInv]
      | some tid => simp [step, hi, ProcInv]

/-- `ProcInv` holds after any event sequence from the initial state. -/
theorem run_procInv (events : List LoopEvent) (s : LoopState)
    (h : ProcInv s) : ProcInv (run s events) := by
  induction events generalizing s with
  | nil => exact h
  | cons e rest ih => exact ih (step s e) (step_procInv s e h)

/-- C1: while the detection loop is running (any stop-free sequence of
start, tick and resolve events from the initial hook state), at most
one recognition call is ever outstanding, and a timer tick that fires
while a call is in flight changes nothing at all — in particular it
performs no frame capture (`captures` unchanged) and issues no detect
call (`detectCalls` unchanged). -/
theorem at_most_one_in_flight (events : List LoopEvent)
    (hsess : ∀ e ∈ events, isStopEvent e = false)
    (tid : ℕ) (frame : Option String) (livePeople : List Person) :
    (run initialLoopState events).pending ≤ 1 ∧
    (1 ≤ (run initialLoopState events).pending →
      step (run initialLoopState events) (.tick tid frame livePeople)
        = run initialLoopState events) := by
  have hinv : InFlightInv (run initialLoopState events) :=
    run_inFlightInv events initialLoopState hsess ⟨by decide, fun _ => rfl⟩
  refine ⟨hinv.1, fun hone => ?_⟩
  have hproc : (run initialLoopState events).isProcessing = true := by
    cases hb : (run initialLoopState events).isProcessing with
    | true => rfl
    | false =>
        have := hinv.2 hb
        omega
  cases hf : (run initialLoopState events).activeTimers.find?
      (fun t => t.1 == tid) with
  | none => simp [step, hf]
  | some entry => simp [step, hf, runDetection, hproc]

/-- C1 witness: after a start that issued a recognition call, the call
is in flight and the next tick is dropped without effect. -/
theorem at_most_one_in_flight_witness :
    (run initialLoopState [.start [cPerson] (some "img")]).pending ≤ 1 ∧
    step (run initialLoopState [.start [cPerson] (some "img")])
        (.tick 0 (some "img2") [cPerson])
      = run initialLoopState [.start [cPerson] (some "img")] := by
  have h := at_most_one_in_flight [.start [cPerson] (some "img")]
    (by decide) 0 (some "img2") [cPerson]
  exact ⟨h.1, h.2 (by decide)⟩

/-- C3: the code violates the stale-result-discard requirement. In the
trace start (call issued for the captured frame), stop, late successful
resolve, the controller is Idle (`isDetecting = false`) yet the
published detection set has been repopulated with the late result — the
resumed `runDetection` applies `setDetectedFaces(result.faces)` without
checking that detection is still active (`useFaceDetection.ts` lines
98-101), where the claim requires the set to remain empty. -/
theorem stale_result_repopulates_after_stop :
    (run initialLoopState
        [.start [cPerson] (some "img"), .stop, .resolve (.ok cResult)]).isDetecting
      = false ∧
    (run initialLoopState
        [.start [cPerson] (some "img"), .stop, .resolve (.ok cResult)]).detectedFaces
      = [cFace] := by
  decide

/-- C4: the code violates start idempotency. `startContinuousDetection`
never checks whether a timer already exists (`useFaceDetection.ts`
lines 83-112): a second consecutive start registers a second interval
timer and overwrites `intervalRef`, so two timers are active, and a
subsequent stop clears only the second — the first keeps running with
no handle left to cancel it. -/
theorem double_start_creates_second_timer :
    (run initialLoopState
        [.start [cPerson] none, .start [cPerson] none]).activeTimers.length = 2 ∧
    (run initialLoopState
        [.start [cPerson] none, .start [cPerson] none, .stop]).activeTimers.length
      = 1 := by
  decide

/-- C5 counterexample: the roster is memoized at start time. Detection
is started while only `cPerson` exists; by the next tick the live
person list has grown to `[cPerson, bobPerson]`, yet the detect call of
that tick carries the roster computed from the start-time snapshot
`[cPerson]` — which differs from the roster the live list would give —
because the tick callback closes over the `registeredPeople` argument
of `startContinuousDetection` (`useFaceDetection.ts` lines 83-112) and
`handleToggleDetection` passes `people` only at start
(`WebcamFaceRecognition.tsx` line 86). -/
theorem roster_snapshot_counterexample :
    (step (run initialLoopState [.start [cPerson] none])
        (.tick 0 (some "img") [cPerson, bobPerson])).detectCalls
      = [registeredFacesOf [cPerson]] ∧
    registeredFacesOf [cPerson] ≠ registeredFacesOf [cPerson, bobPerson] := by
  decide

/-- C5 amended: on every detection cycle the Recognition Client is
called with the roster recomputed — filtered to active identities with
facial data — from the person-list snapshot captured when start() was
called; the live person list at the tick plays no role, so a roster
change made after start is not reflected until detection is
restarted. -/
theorem roster_from_start_snapshot (s : LoopState) (tid : ℕ)
    (registeredPeople livePeople : List Person) (img : String)
    (hfind : s.activeTimers.find? (fun t => t.1 == tid)
        = some (tid, registeredPeople))
    (hproc : s.isProcessing = false) :
    (step s (.tick tid (some img) livePeople)).detectCalls
      = s.detectCalls ++ [registeredFacesOf registeredPeople] := by
  simp [step, hfind, runDetection, hproc]

/-- C5 witness: a tick of the timer created by start appends the
detect call computed from the start-time snapshot, with a different
live list present. -/
theorem roster_from_start_snapshot_witness :
    (step (run initialLoopState [.start [cPerson] none])
        (.tick 0 (some "img") [cPerson, bobPerson])).detectCalls
      = (run initialLoopState [.start [cPerson] none]).detectCalls
          ++ [registeredFacesOf [cPerson]] :=
  roster_from_start_snapshot (run initialLoopState [.start [cPerson] none])
    0 [cPerson] [cPerson, bobPerson] "img" (by decide) (by decide)

/-- C6 counterexample: stopping detection does not wipe the cooldown
map. `cPerson` is logged at t = 5000 in the first session; toggling
detection off leaves `loggedPersonsRef` holding that entry (nothing in
`handleToggleDetection` or `stopDetection` touches it), and in a fresh
session a detection of the same person at t = 10000 emits no event —
the previous session's cooldown still suppresses it, where the claim
promises an empty map and immediate re-logging. -/
theorem cooldown_survives_stop_counterexample :
    csStopped.loggedPersons = [("p1", 5000)] ∧
    (onDetectedFaces csRepublished [cPerson] 10000).2 = [] := by
  decide

/-- C6 amended: stopping detection does not wipe the cooldown map:
toggling off clears the published detection set and stops the loop but
leaves the per-component map from personId to last-logged time exactly
as it was (it persists until the component unmounts), so a person
logged in a previous session stays under cooldown in a new session
started less than 30 s later. -/
theorem stop_preserves_cooldown_map (cs : ComponentState)
    (people : List Person) (frame : Option String)
    (hactive : cs.isActive = true) :
    (handleToggleDetection cs people frame).loggedPersons = cs.loggedPersons ∧
    (handleToggleDetection cs people frame).isActive = false ∧
    (handleToggleDetection cs people frame).loop.isDetecting = false ∧
    (handleToggleDetection cs people frame).loop.detectedFaces = [] := by
  cases hi : cs.loop.intervalRef with
  | none => simp [handleToggleDetection, hactive, step, hi]
  | some tid => simp [handleToggleDetection, hactive, step, hi]

/-- C6 witness: toggling off the session that logged `cPerson` keeps
its cooldown entry while stopping the loop and clearing the faces. -/
theorem stop_preserves_cooldown_map_witness :
    (handleToggleDetection csLogged [cPerson] none).loggedPersons
      = csLogged.loggedPersons ∧
    (handleToggleDetection csLogged [cPerson] none).isActive = false ∧
    (handleToggleDetection csLogged [cPerson] none).loop.isDetecting = false ∧
    (handleToggleDetection csLogged [cPerson] none).loop.detectedFaces = [] :=
  stop_preserves_cooldown_map csLogged [cPerson] none (by decide)

/-- C7: the overlay mapper flips the horizontal position for the
mirrored video — left = 100 - x - width — and passes top, width and
height through unchanged; the spec's example box maps to
left 45, top 15, width 30, height 40. -/
theorem mirrored_overlay_formula (b : BoundingBox) :
    mapToMirroredScreenSpace b
      = { left := 100 - b.x - b.width, top := b.y
          width := b.width, height := b.height } ∧
    mapToMirroredScreenSpace cBox
      = { left := 45, top := 15, width := 30, height := 40 } :=
  ⟨rfl, by norm_num [mapToMirroredScreenSpace, cBox]⟩

/-- C8 counterexample: no clamping happens. The box with x = -10 and
width = 120 is mapped to left = 100 - (-10) - 120 = -10 < 0 with width
120 > 100 passed through: out-of-range inputs reach the output, where
the claim promises every output field inside the interval from 0 to
100. -/
theorem overlay_no_clamp_counterexample :
    (mapToMirroredScreenSpace
        { x := -10, y := 15, width := 120, height := 40 }).left < 0 ∧
    (mapToMirroredScreenSpace
        { x := -10, y := 15, width := 120, height := 40 }).width > 100 := by
  norm_num [mapToMirroredScreenSpace]

/-- C8 amended: the overlay mapper performs no clamping — the raw
fields feed left = 100 - x - width with top, width, height passed
through — so out-of-range inputs can produce out-of-range outputs
(negative or above 100); whenever the inputs are percentages with the
box contained in the frame (x, y, width, height each within 0 to 100
and x + width at most 100), all four output fields lie within 0 to
100. -/
theorem overlay_passthrough_bounds (b : BoundingBox) :
    mapToMirroredScreenSpace b
      = { left := 100 - b.x - b.width, top := b.y
          width := b.width, height := b.height } ∧
    (0 ≤ b.x → 0 ≤ b.y → b.y ≤ 100 → 0 ≤ b.width → 0 ≤ b.height →
      b.height ≤ 100 → b.x + b.width ≤ 100 →
      0 ≤ (mapToMirroredScreenSpace b).left ∧
      (mapToMirroredScreenSpace b).left ≤ 100 ∧
      0 ≤ (mapToMirroredScreenSpace b).top ∧
      (mapToMirroredScreenSpace b).top ≤ 100 ∧
      0 ≤ (mapToMirroredScreenSpace b).width ∧
      (mapToMirroredScreenSpace b).width ≤ 100 ∧
      0 ≤ (mapToMirroredScreenSpace b).height ∧
      (mapToMirroredScreenSpace b).height ≤ 100) := by
  refine ⟨rfl, ?_⟩
  intro hx hy0 hy1 hw0 hh0 hh1 hxw
  simp only [mapToMirroredScreenSpace]
  refine ⟨by linarith, by linarith, hy0, hy1, hw0, by linarith, hh0, hh1⟩

/-- C8 witness: the in-range example box yields in-range output
fields. -/
theorem overlay_passthrough_bounds_witness :
    0 ≤ (mapToMirroredScreenSpace cBox).left ∧
    (mapToMirroredScreenSpace cBox).left ≤ 100 ∧
    0 ≤ (mapToMirroredScreenSpace cBox).top ∧
    (mapToMirroredScreenSpace cBox).top ≤ 100 ∧
    0 ≤ (mapToMirroredScreenSpace cBox).width ∧
    (mapToMirroredScreenSpace cBox).width ≤ 100 ∧
    0 ≤ (mapToMirroredScreenSpace cBox).height ∧
    (mapToMirroredScreenSpace cBox).height ≤ 100 :=
  (overlay_passthrough_bounds cBox).2 (by norm_num [cBox]) (by norm_num [cBox])
    (by norm_num [cBox]) (by norm_num [cBox]) (by norm_num [cBox])
    (by norm_num [cBox]) (by norm_num [cBox])

/-- C2 counterexample: the emission condition is not the claimed iff.
First, a registered face whose matchedPersonId has no matching person
in the live list emits nothing even with an empty cooldown map (the
code requires `people.find` to succeed, `WebcamFaceRecognition.tsx`
line 49). Second, the claim's own t = 0 / t = 10000 scenario emits TWO
events, not one: the t = 0 detection stores timestamp 0, and the check
`!lastLogged || now - lastLogged > 30000` (line 55) treats the stored 0
as falsy, so the t = 10000 detection logs again although
10000 - 0 is not greater than 30000. -/
theorem cooldown_claim_counterexample :
    (processDetectedFaces [] [cFace] [] 0).2 = [] ∧
    (processDetectedFaces [cPerson] [cFace] [] 0).1 = [("p1", 0)] ∧
    (processDetectedFaces [cPerson] [cFace] [("p1", 0)] 10000).2.length = 1 := by
  decide

/-- C2 amended: for a registered face whose matchedPersonId resolves to
a person in the live person list, the reconciler emits an AccessEvent
iff the cooldown map has no entry for that personId, or the stored
entry equals 0 (JS treats a stored falsy timestamp like a missing one),
or now minus the entry strictly exceeds 30000 ms — and on emission it
sets the entry to now. Distinct personIds are tracked independently
(writing one key never changes another). With a nonzero clock base the
spec's scenario holds: detections of the same person at t = 1000 and
t = 11000 yield exactly one event, and a third detection at t = 32000
yields a second event, restamping the entry. -/
theorem cooldown_reconcile_amended (people : List Person)
    (face : DetectedFace) (m : CooldownMap) (now : ℤ) (pid : String)
    (person : Person)
    (hreg : face.isRegistered = true)
    (hpid : face.matchedPersonId = some pid)
    (hfind : people.find? (fun p => p.id == pid) = some person) :
    ((processDetectedFaces people [face] m now).2
        = [mkAccessEvent person now] ↔ shouldLog m pid now = true) ∧
    (shouldLog m pid now = true →
      lookupCooldown (processDetectedFaces people [face] m now).1 pid
        = some now) ∧
    (shouldLog m pid now = false →
      processDetectedFaces people [face] m now = (m, [])) ∧
    (∀ (m2 : CooldownMap) (pid2 : String) (t : ℤ), pid ≠ pid2 →
      lookupCooldown (setCooldown m2 pid t) pid2 = lookupCooldown m2 pid2) ∧
    (processDetectedFaces [cPerson] [cFace] [] 1000).2.length = 1 ∧
    (processDetectedFaces [cPerson] [cFace] [("p1", 1000)] 11000).2 = [] ∧
    (processDetectedFaces [cPerson] [cFace] [("p1", 1000)] 32000).2.length = 1 ∧
    lookupCooldown
        (processDetectedFaces [cPerson] [cFace] [("p1", 1000)] 32000).1 "p1"
      = some 32000 := by
  have hiff : (processDetectedFaces people [face] m now).2
      = [mkAccessEvent person now] ↔ shouldLog m pid now = true := by
    by_cases hlog : shouldLog m pid now = true
    · simp [processDetectedFaces, processFace, hreg, hpid, hfind, hlog]
    · simp [processDetectedFaces, processFace, hreg, hpid, hfind, hlog]
  have hset : shouldLog m pid now = true →
      lookupCooldown (processDetectedFaces people [face] m now).1 pid
        = some now := by
    intro hlog
    simp [processDetectedFaces, processFace, hreg, hpid, hfind, hlog,
      lookupCooldown_setCooldown_self]
  have hskip : shouldLog m pid now = false →
      processDetectedFaces people [face] m now = (m, []) := by
    intro hlog
    simp [processDetectedFaces, processFace, hreg, hpid, hfind, hlog]
  refine ⟨hiff, hset, hskip, ?_, by decide, by decide, by decide, by decide⟩
  intro m2 pid2 t hne
  exact lookupCooldown_setCooldown_of_ne m2 pid pid2 t hne

/-- C2 witness: a fresh map and a live person — the detection at
t = 1000 emits the event and stamps the map. -/
theorem cooldown_reconcile_amended_witness :
    (processDetectedFaces [cPerson] [cFace] [] 1000).2
      = [mkAccessEvent cPerson 1000] ∧
    lookupCooldown (processDetectedFaces [cPerson] [cFace] [] 1000).1 "p1"
      = some 1000 :=
  ⟨(cooldown_reconcile_amended [cPerson] cFace [] 1000 "p1" cPerson rfl rfl
      (by decide)).1.mpr (by decide),
   (cooldown_reconcile_amended [cPerson] cFace [] 1000 "p1" cPerson rfl rfl
      (by decide)).2.1 (by decide)⟩

/-- C9: when an in-flight recognition call fails, the resumed tick
leaves the published detection set exactly as it was (stale, not
cleared), leaves every interval timer and the stored handle in place
(so the loop keeps scheduling future ticks), resets the in-flight
guard, and records the message via setError — the failure is absorbed
inside `detectOnce`'s catch (`useFaceDetection.ts` lines 76-80), so no
exception escapes the timer callback. -/
theorem failure_leaves_set_and_loop (s : LoopState) (msg : String)
    (hp : s.pending ≠ 0) :
    (step s (.resolve (.error msg))).detectedFaces = s.detectedFaces ∧
    (step s (.resolve (.error msg))).activeTimers = s.activeTimers ∧
    (step s (.resolve (.error msg))).intervalRef = s.intervalRef ∧
    (step s (.resolve (.error msg))).isDetecting = s.isDetecting ∧
    (step s (.resolve (.error msg))).isProcessing = false ∧
    (step s (.resolve (.error msg))).error = some msg := by
  simp [step, hp]

/-- C9 witness: the call issued at start fails with a network error;
the set, the timer and the handle survive and the guard is clear. -/
theorem failure_leaves_set_and_loop_witness :
    (step (run initialLoopState [.start [cPerson] (some "img")])
        (.resolve (.error "network error"))).detectedFaces
      = (run initialLoopState [.start [cPerson] (some "img")]).detectedFaces ∧
    (step (run initialLoopState [.start [cPerson] (some "img")])
        (.resolve (.error "network error"))).activeTimers
      = (run initialLoopState [.start [cPerson] (some "img")]).activeTimers ∧
    (step (run initialLoopState [.start [cPerson] (some "img")])
        (.resolve (.error "network error"))).intervalRef
      = (run initialLoopState [.start [cPerson] (some "img")]).intervalRef ∧
    (step (run initialLoopState [.start [cPerson] (some "img")])
        (.resolve (.error "network error"))).isDetecting
      = (run initialLoopState [.start [cPerson] (some "img")]).isDetecting ∧
    (step (run initialLoopState [.start [cPerson] (some "img")])
        (.resolve (.error "network error"))).isProcessing = false ∧
    (step (run initialLoopState [.start [cPerson] (some "img")])
        (.resolve (.error "network error"))).error = some "network error" :=
  failure_leaves_set_and_loop
    (run initialLoopState [.start [cPerson] (some "img")])
    "network error" (by decide)

/-- C10: the in-flight guard never stays set behind a completed run of
the per-tick function: a run that found no frame ends with the guard
clear, a resolution of the recognition call — success or failure — ends
with the guard clear, and in every state reachable from the initial one
(any event sequence, stop included) the guard is set only while a
recognition call is outstanding, whose resolution will clear it. -/
theorem processing_guard_always_reset (s : LoopState)
    (registeredPeople : List Person)
    (result : Except String FaceDetectionResult)
    (events : List LoopEvent) :
    (s.isProcessing = false →
      (runDetection s registeredPeople none).isProcessing = false) ∧
    (s.pending ≠ 0 → (step s (.resolve result)).isProcessing = false) ∧
    ((run initialLoopState events).isProcessing = true →
      1 ≤ (run initialLoopState events).pending) := by
  refine ⟨?_, ?_, ?_⟩
  · intro hproc
    simp [runDetection, hproc]
  · intro hp
    cases result with
    | ok res => simp [step, hp]
    | error m => simp [step, hp]
  · exact run_procInv events initialLoopState (fun h => absurd h (by decide))

/-- C10 witness: a no-frame run ends unguarded, a failed resolution
ends unguarded, and the started state with a call in flight indeed has
an outstanding call. -/
theorem processing_guard_always_reset_witness :
    (runDetection (run initialLoopState [.start [cPerson] none])
        [cPerson] none).isProcessing = false ∧
    (step (run initialLoopState [.start [cPerson] (some "img")])
        (.resolve (.error "network error"))).isProcessing = false ∧
    1 ≤ (run initialLoopState [.start [cPerson] (some "img")]).pending :=
  ⟨(processing_guard_always_reset
      (run initialLoopState [.start [cPerson] none]) [cPerson]
      (.error "network error") [.start [cPerson] (some "img")]).1 (by decide),
   (processing_guard_always_reset
      (run initialLoopState [.start [cPerson] (some "img")]) [cPerson]
      (.error "network error") [.start [cPerson] (some "img")]).2.1 (by decide),
   (processing_guard_always_reset
      (run initialLoopState [.start [cPerson] none]) [cPerson]
      (.error "network error") [.start [cPerson] (some "img")]).2.2 (by decide)⟩

end FaceDetect
